import Mathlib

/-!
Shallow embedding of the scrobbler protocol client found in
src/core/background/scrobblers/baseScrobbler.js.

JavaScript objects used as string-to-string parameter maps are embedded as
association lists in insertion order (`Params`); the `for (var x in params)`
loops of the source walk that order.  External collaborators (the MD5
routine from vendor/md5, encodeURIComponent, the fetch transport, the XML
parser and the per-label storage namespace) are passed in as explicit
arguments or explicit outcome values, so every definition stays executable.
Promise resolution and rejection are embedded as `Except`.
-/

namespace Scrobbler

/-- Parameter maps (JS objects) as association lists in insertion order. -/
abbrev Params := List (String × String)

/-- Lexicographic comparison of character lists, used to embed the
JavaScript `Array.prototype.sort()` default ordering of string keys. -/
def charListLe : List Char → List Char → Bool
  | [], _ => true
  | _ :: _, [] => false
  | a :: as, b :: bs =>
    if a < b then true
    else if b < a then false
    else charListLe as bs

/-- Lexicographic order on strings (the order `keys.sort()` produces). -/
def strLe (a b : String) : Prop := charListLe a.data b.data = true

instance : DecidableRel strLe := fun _ _ => instDecidableEqBool _ _

/-- Modelled from the spec: objects/serviceCallResult is not part of the
source tree; the spec describes it as the tagged variant
`{ Ok } | { AuthError } | { OtherError }`. -/
inductive ServiceCallResult where
  | Ok
  | AuthError
  | OtherError
deriving DecidableEq

instance {ε α : Type} [DecidableEq ε] [DecidableEq α] : DecidableEq (Except ε α) :=
fun a b =>
  match a, b with
  | Except.ok x, Except.ok y =>
    if h : x = y then isTrue (by rw [h]) else isFalse (fun he => h (Except.ok.inj he))
  | Except.error x, Except.error y =>
    if h : x = y then isTrue (by rw [h]) else isFalse (fun he => h (Except.error.inj he))
  | Except.ok _, Except.error _ => isFalse (fun he => Except.noConfusion he)
  | Except.error _, Except.ok _ => isFalse (fun he => Except.noConfusion he)

/-- Embedding of `generateSign(params)`: collect the keys in iteration
order, sort them, skip `format` and `callback` while concatenating
`key + value`, append the shared secret and hash.  The MD5 routine is the
external vendor/md5 collaborator, passed in as `md5`.  The lookup is total
on the keys collected from `params`, so the `getD` default is never used
on JavaScript-representable inputs. -/
def generateSign (md5 : String → String) (apiSecret : String) (params : Params) : String :=
  let keys := params.map Prod.fst
  let sorted := List.insertionSort strLe keys
  let o := sorted.foldl
    (fun o k =>
      if k = "format" ∨ k = "callback" then o
      else o ++ k ++ (List.lookup k params).getD "") ""
  md5 (o ++ apiSecret)

/-- Reference signature function written from the words of the spec:
collect all keys, sort them lexicographically, drop `format` and
`callback`, concatenate key followed by value for each remaining key in
sorted order, append the secret, and hash. -/
def signSpec (md5 : String → String) (apiSecret : String) (params : Params) : String :=
  let sortedKeys := List.insertionSort strLe (params.map Prod.fst)
  let remaining := sortedKeys.filter (fun k => !(k == "format" || k == "callback"))
  let payload := (remaining.map (fun k => k ++ (List.lookup k params).getD "")).foldr (· ++ ·) ""
  md5 (payload ++ apiSecret)

/-- Distinct-keys predicate: a JavaScript object never holds two
properties with the same name. -/
def NodupKeys (params : Params) : Prop := (params.map Prod.fst).Nodup

instance : DecidablePred NodupKeys := fun p => List.nodupDecidable (p.map Prod.fst)

/-- Embedding of `createQueryString(params)`: push `key=encoded value`
parts in iteration order, then join with ampersands.  `urlEncode` is the
external encodeURIComponent collaborator. -/
def createQueryString (urlEncode : String → String) (params : Params) : String :=
  let parts := params.foldl (fun ps e => ps ++ [e.1 ++ "=" ++ urlEncode e.2]) []
  String.intercalate "&" parts

/-- Reference query-string builder written from the words of the spec:
join `key=urlEncode(value)` pairs with ampersands in the caller-supplied
key order. -/
def buildQueryStringSpec (urlEncode : String → String) (params : Params) : String :=
  String.intercalate "&" (params.map (fun e => e.1 ++ "=" ++ urlEncode e.2))

/-- Stored credential record of one storage namespace.  `none` stands for
a JavaScript null or undefined field. -/
structure StoredData where
  token : Option String
  sessionID : Option String
  sessionName : Option String
deriving DecidableEq

/-- Session object returned by the token trade (`data.session` of the
auth.getsession JSON body). -/
structure Session where
  key : String
  name : String
deriving DecidableEq

/-- Value `getSession` resolves with: the stored session fields. -/
structure SessionData where
  sessionID : Option String
  sessionName : Option String
deriving DecidableEq

/-- JavaScript truthiness of an optional string field: null, undefined
and the empty string are falsy. -/
def jsTruthy : Option String → Bool
  | none => false
  | some s => !(s == "")

/-- Embedding of `data.token || null`: a falsy field is coerced to null. -/
def jsOrNull (o : Option String) : Option String :=
  if jsTruthy o then o else none

/-- Result of one `getSession()` call: the stored state after the call,
the settled promise, and how many times `tradeTokenForSession` ran. -/
structure GetSessionResult where
  state : StoredData
  outcome : Except ServiceCallResult SessionData
  tradeCalls : Nat
deriving DecidableEq

/-- Embedding of `getSession()`.  The outcome the external
`tradeTokenForSession` network call would settle with is passed in as
`trade`; the `tradeCalls` field counts how often it was actually used. -/
def getSession (d : StoredData) (trade : Except Unit Session) : GetSessionResult :=
  match jsOrNull d.token with
  | some _ =>
    match trade with
    | Except.ok session =>
      let d1 : StoredData :=
        { d with token := none, sessionID := some session.key, sessionName := some session.name }
      { state := d1,
        outcome := Except.ok { sessionID := d1.sessionID, sessionName := d1.sessionName },
        tradeCalls := 1 }
    | Except.error _ =>
      let d1 : StoredData := { d with token := none, sessionID := none, sessionName := none }
      { state := d1,
        outcome := Except.error ServiceCallResult.AuthError,
        tradeCalls := 1 }
  | none =>
    if !jsTruthy d.sessionID then
      { state := d, outcome := Except.error ServiceCallResult.AuthError, tradeCalls := 0 }
    else
      { state := d,
        outcome := Except.ok { sessionID := d.sessionID, sessionName := d.sessionName },
        tradeCalls := 0 }

/-- Parsed body of the auth.gettoken response: the `status` attribute of
the `lfm` envelope element (absent attribute = `none`) and the text of the
`token` element (an absent element yields the empty string, as jQuery
`.text()` does). -/
structure TokenResponse where
  status : Option String
  tokenText : String
deriving DecidableEq

/-- Embedding of `getAuthUrl()` without its timeout wrapper.  `resp` is
the parsed outcome of the external fetch: `none` when the network call or
the XML parse failed (the raw rejection passes through and storage is not
touched), `some r` when a response body was parsed. -/
def getAuthUrl (authUrl apiKey : String) (d : StoredData) (resp : Option TokenResponse) :
    StoredData × Except Unit String :=
  match resp with
  | none => (d, Except.error ())
  | some r =>
    if r.status ≠ some "ok" then
      ({ d with token := none }, Except.error ())
    else
      let token := r.tokenText
      let d1 : StoredData := { d with sessionID := none, token := some token }
      (d1, Except.ok (authUrl ++ "?api_key=" ++ apiKey ++ "&token=" ++ token))

/-- Hard timeout of the auth-URL acquisition, in milliseconds. -/
def GET_AUTH_URL_TIMEOUT : Nat := 10000

/-- Embedding of `timeoutPromise(timeout, promise)`: the wrapped promise
settles at `settleAt` milliseconds with `res`; when the timer fires first
the returned promise rejects instead.  Promise rejection reasons are
collapsed to `Unit`. -/
def timeoutPromise {α : Type} (timeout : Nat) (settleAt : Nat) (res : Except Unit α) :
    Except Unit α :=
  if settleAt < timeout then res else Except.error ()

/-- The full `getAuthUrl()` pipeline: the inner fetch-and-store chain
wrapped in `timeoutPromise`.  The storage writes of the inner chain still
happen when the response arrives after the timer fired, so the state
component is unaffected by the timeout. -/
def getAuthUrlTimed (authUrl apiKey : String) (d : StoredData) (settleAt : Nat)
    (resp : Option TokenResponse) : StoredData × Except Unit String :=
  let r := getAuthUrl authUrl apiKey d resp
  (r.1, timeoutPromise GET_AUTH_URL_TIMEOUT settleAt r.2)

/-- Parsed XML response envelope, reduced to the attribute the client
reads: the `status` attribute of its `lfm` element. -/
structure Envelope where
  status : Option String
deriving DecidableEq

/-- Embedding of `processResponse($doc)`. -/
def processResponse (doc : Envelope) : ServiceCallResult :=
  if doc.status ≠ some "ok" then ServiceCallResult.OtherError
  else ServiceCallResult.Ok

/-- Outcome of the external fetch call inside `doRequest`.  `fetch`
resolves with any HTTP response whatever its status code; it rejects (or
reading the body rejects) only on a network-level failure. -/
inductive FetchOutcome where
  | networkError
  | response (status : Nat) (body : String)
deriving DecidableEq

/-- JavaScript property assignment `params[k] = v` on an object embedded
as an association list: an existing key keeps its position, a new key is
appended. -/
def jsSet (params : Params) (k v : String) : Params :=
  if params.any (fun e => e.1 == k) then
    params.map (fun e => if e.1 = k then (k, v) else e)
  else
    params ++ [(k, v)]

/-- Embedding of `doRequest(method, params, signed)`: inject the API key,
optionally sign (the signature is computed before `api_sig` itself is
added), build the URL (consumed by the external fetch) and parse the body.
`parseXML` is the external jQuery parser, returning `none` when the body
is not well-formed XML; any upstream rejection is caught and replaced by
`ServiceCallResult.OtherError`. -/
def doRequest (md5 : String → String) (apiKey apiSecret : String)
    (method : String) (params : Params) (signed : Bool)
    (fetched : FetchOutcome) (parseXML : String → Option Envelope) :
    Except ServiceCallResult Envelope :=
  let params1 := jsSet params "api_key" apiKey
  let _params2 :=
    if signed then jsSet params1 "api_sig" (generateSign md5 apiSecret params1) else params1
  let _method := method
  match fetched with
  | FetchOutcome.networkError => Except.error ServiceCallResult.OtherError
  | FetchOutcome.response _ body =>
    match parseXML body with
    | none => Except.error ServiceCallResult.OtherError
    | some doc => Except.ok doc

/-- Modelled from the spec: the Song object consumed by the scrobble
operations lives outside the source tree; the spec gives the read-only
descriptor `{ artist, track, album?, duration?, startTimestamp }`, with
the optional fields included in requests only when present. -/
structure Song where
  artist : String
  track : String
  album : Option String
  duration : Option Nat
  startTimestamp : Nat
deriving DecidableEq

/-- Request handed to `doRequest` by a scrobble operation. -/
structure Request where
  method : String
  params : Params
  signed : Bool
deriving DecidableEq

/-- Parameter object built by `scrobble(song)` once a session is at hand,
in source insertion order; `album[0]` is appended only when the song
carries an album. -/
def scrobbleParams (apiKey sk : String) (song : Song) : Params :=
  let params : Params :=
    [("method", "track.scrobble"),
     ("timestamp[0]", toString song.startTimestamp),
     ("track[0]", song.track),
     ("artist[0]", song.artist),
     ("api_key", apiKey),
     ("sk", sk)]
  match song.album with
  | some album => params ++ [("album[0]", album)]
  | none => params

/-- Embedding of `scrobble(song)` up to the request it hands to
`doRequest`: run `getSession`, propagate its rejection unchanged, and
otherwise build the signed POST.  A null session key would be stringified
by encodeURIComponent as the text `null`; the model applies that
stringification when the request is built. -/
def scrobble (apiKey : String) (d : StoredData) (trade : Except Unit Session) (song : Song) :
    Except ServiceCallResult Request :=
  match (getSession d trade).outcome with
  | Except.error e => Except.error e
  | Except.ok sd =>
    let sk := match sd.sessionID with
      | some s => s
      | none => "null"
    Except.ok { method := "POST", params := scrobbleParams apiKey sk song, signed := true }

/-- Credential-store invariant of the spec: token and session identifier
are never both set. -/
def CredInv (d : StoredData) : Prop :=
  ¬(d.token.isSome = true ∧ d.sessionID.isSome = true)

instance : DecidablePred CredInv := fun _ => instDecidableNot

/-- Stored states reachable from the empty credential record through the
two credential-writing operations. -/
inductive ReachableCred : StoredData → Prop where
  | init : ReachableCred ⟨none, none, none⟩
  | authStep {d : StoredData} (a k : String) (resp : Option TokenResponse) :
      ReachableCred d → ReachableCred (getAuthUrl a k d resp).1
  | sessionStep {d : StoredData} (trade : Except Unit Session) :
      ReachableCred d → ReachableCred (getSession d trade).state

theorem charListLe_total : ∀ as bs : List Char, charListLe as bs = true ∨ charListLe bs as = true
  | [], _ => Or.inl rfl
  | _ :: _, [] => Or.inr rfl
  | a :: as, b :: bs => by
    rcases lt_trichotomy a b with h | h | h
    · left; simp [charListLe, h]
    · subst h
      rcases charListLe_total as bs with ih | ih
      · left; simp [charListLe, lt_self_iff_false, ih]
      · right; simp [charListLe, lt_self_iff_false, ih]
    · right; simp [charListLe, h]

theorem charListLe_trans : ∀ as bs cs : List Char,
    charListLe as bs = true → charListLe bs cs = true → charListLe as cs = true
  | [], _, _, _, _ => rfl
  | _ :: _, [], _, h1, _ => by simp [charListLe] at h1
  | _ :: _, _ :: _, [], _, h2 => by simp [charListLe] at h2
  | a :: as, b :: bs, c :: cs, h1, h2 => by
    simp only [charListLe] at h1 h2 ⊢
    rcases lt_trichotomy a b with hab | hab | hab
    · rcases lt_trichotomy b c with hbc | hbc | hbc
      · simp [lt_trans hab hbc]
      · subst hbc; simp [hab]
      · simp [lt_asymm hbc, hbc] at h2
    · subst hab
      simp only [lt_self_iff_false, if_false] at h1
      rcases lt_trichotomy a c with hac | hac | hac
      · simp [hac]
      · subst hac
        simp only [lt_self_iff_false, if_false] at h2 ⊢
        exact charListLe_trans as bs cs h1 h2
      · simp [lt_asymm hac, hac] at h2
    · simp [lt_asymm hab, hab] at h1

theorem charListLe_antisymm : ∀ as bs : List Char,
    charListLe as bs = true → charListLe bs as = true → as = bs
  | [], [], _, _ => rfl
  | [], _ :: _, _, h2 => by simp [charListLe] at h2
  | _ :: _, [], h1, _ => by simp [charListLe] at h1
  | a :: as, b :: bs, h1, h2 => by
    rcases lt_trichotomy a b with hab | hab | hab
    · simp [charListLe, lt_asymm hab, hab] at h2
    · subst hab
      simp only [charListLe, lt_self_iff_false, if_false] at h1 h2
      rw [charListLe_antisymm as bs h1 h2]
    · simp [charListLe, lt_asymm hab, hab] at h1

instance : IsTotal String strLe := ⟨fun a b => charListLe_total a.data b.data⟩

instance : IsTrans String strLe := ⟨fun a b c => charListLe_trans a.data b.data c.data⟩

instance : IsAntisymm String strLe :=
  ⟨fun a b h1 h2 => String.ext (charListLe_antisymm a.data b.data h1 h2)⟩

/-- Sorting with `strLe` is invariant under permutation of the input:
the two sorts are permutations of each other and both sorted, and the
order is antisymmetric. -/
theorem insertionSort_strLe_eq {l1 l2 : List String} (h : l1.Perm l2) :
    List.insertionSort strLe l1 = List.insertionSort strLe l2 :=
  List.eq_of_perm_of_sorted
    (((List.perm_insertionSort strLe l1).trans h).trans (List.perm_insertionSort strLe l2).symm)
    (List.sorted_insertionSort strLe l1)
    (List.sorted_insertionSort strLe l2)

/-- Association-list lookup depends only on the underlying finite map
when the keys are distinct. -/
theorem lookup_perm (k : String) :
    ∀ {p q : Params}, p.Perm q → (p.map Prod.fst).Nodup →
      List.lookup k p = List.lookup k q := by
  intro p q h
  induction h with
  | nil => intro _; rfl
  | cons x h ih =>
    intro hnd
    obtain ⟨x1, x2⟩ := x
    rcases hb : (k == x1) with _ | _ <;>
      simp only [List.lookup_cons, hb] <;>
      first
        | rfl
        | exact ih (by simpa [List.map_cons] using (List.Nodup.of_cons (by simpa using hnd)))
  | swap x y l =>
    intro hnd
    obtain ⟨x1, x2⟩ := x
    obtain ⟨y1, y2⟩ := y
    have hxy : y1 ≠ x1 := by
      simp [List.nodup_cons] at hnd
      exact hnd.1.1
    by_cases h1 : k = x1 <;> by_cases h2 : k = y1
    · exact absurd (h2.symm.trans h1) hxy
    · have hb1 : (k == x1) = true := beq_iff_eq.mpr h1
      have hb2 : (k == y1) = false := beq_eq_false_iff_ne.mpr h2
      simp only [List.lookup_cons, hb1, hb2]
    · have hb1 : (k == x1) = false := beq_eq_false_iff_ne.mpr h1
      have hb2 : (k == y1) = true := beq_iff_eq.mpr h2
      simp only [List.lookup_cons, hb1, hb2]
    · have hb1 : (k == x1) = false := beq_eq_false_iff_ne.mpr h1
      have hb2 : (k == y1) = false := beq_eq_false_iff_ne.mpr h2
      simp only [List.lookup_cons, hb1, hb2]
  | trans h1 _ ih1 ih2 =>
    intro hnd
    exact (ih1 hnd).trans (ih2 (((h1.map Prod.fst).nodup_iff).mp hnd))

/-- The part-collecting loop of `createQueryString` is a map in input
order. -/
theorem foldl_push_eq_map {α β : Type} (f : α → β) :
    ∀ (l : List α) (acc : List β),
      l.foldl (fun ps e => ps ++ [f e]) acc = acc ++ l.map f
  | [], acc => by simp
  | a :: l, acc => by
    rw [List.foldl_cons, foldl_push_eq_map f l (acc ++ [f a])]
    simp

/-- The signing loop of `generateSign` (fold with a skip over the two
reserved keys) concatenates exactly the filtered key-value pieces in
order. -/
theorem foldl_sign_eq (v : String → String) :
    ∀ (l : List String) (acc : String),
      l.foldl (fun o k => if k = "format" ∨ k = "callback" then o else o ++ k ++ v k) acc
        = acc ++ ((l.filter (fun k => !(k == "format" || k == "callback"))).map
            (fun k => k ++ v k)).foldr (· ++ ·) ""
  | [], acc => by simp [String.append_empty]
  | k :: l, acc => by
    by_cases hk : k = "format" ∨ k = "callback"
    · have hb : (!(k == "format" || k == "callback")) = false := by
        rcases hk with h | h <;> simp [h]
      rw [List.foldl_cons, if_pos hk]
      rw [List.filter_cons, hb]
      exact foldl_sign_eq v l acc
    · have hb : (!(k == "format" || k == "callback")) = true := by
        push_neg at hk
        simp [hk.1, hk.2]
      rw [List.foldl_cons, if_neg hk, foldl_sign_eq v l (acc ++ k ++ v k)]
      rw [List.filter_cons, hb]
      simp [String.append_assoc]

/-- C1: for every parameter mapping and secret, `generateSign` equals the
reference definition (collect all keys, sort them lexicographically, drop
`format` and `callback`, concatenate key followed by value in sorted
order, append the secret, hash); in particular the digest is the same for
any two insertion orders of the same mapping (permutations with distinct
keys). -/
theorem c1_generateSign_spec :
    (∀ (md5 : String → String) (apiSecret : String) (params : Params),
       generateSign md5 apiSecret params = signSpec md5 apiSecret params) ∧
    (∀ (md5 : String → String) (apiSecret : String) (p q : Params),
       p.Perm q → NodupKeys p →
       generateSign md5 apiSecret p = generateSign md5 apiSecret q) := by
  constructor
  · intro md5 sec params
    simp only [generateSign, signSpec]
    rw [foldl_sign_eq, String.empty_append]
  · intro md5 sec p q hperm hnd
    have hkeys : List.insertionSort strLe (p.map Prod.fst)
        = List.insertionSort strLe (q.map Prod.fst) :=
      insertionSort_strLe_eq (hperm.map Prod.fst)
    have hlook : ∀ k, List.lookup k p = List.lookup k q :=
      fun k => lookup_perm k hperm hnd
    simp only [generateSign, hkeys, hlook]

/-- C1 witness: the two insertion orders of the mapping a=1, b=2 produce
the same digest, and the sign matches the reference definition there. -/
theorem c1_witness :
    generateSign (fun s => s) "secret" [("b", "2"), ("a", "1")]
        = signSpec (fun s => s) "secret" [("b", "2"), ("a", "1")] ∧
    generateSign (fun s => s) "secret" [("b", "2"), ("a", "1")]
        = generateSign (fun s => s) "secret" [("a", "1"), ("b", "2")] :=
  ⟨c1_generateSign_spec.1 (fun s => s) "secret" [("b", "2"), ("a", "1")],
   c1_generateSign_spec.2 (fun s => s) "secret" _ _
     (List.Perm.swap ("a", "1") ("b", "2") []) (by decide)⟩

/-- C5: `processResponse` returns `OtherError` exactly when the status
attribute of the envelope is not the string `ok` (whatever the transport
outcome was), returns `Ok` exactly when it is, and produces no other
value. -/
theorem c5_processResponse :
    ∀ e : Envelope,
      (processResponse e = ServiceCallResult.OtherError ↔ e.status ≠ some "ok") ∧
      (processResponse e = ServiceCallResult.Ok ↔ e.status = some "ok") ∧
      (processResponse e = ServiceCallResult.Ok ∨
        processResponse e = ServiceCallResult.OtherError) := by
  intro e
  by_cases h : e.status = some "ok" <;> simp [processResponse, h]

/-- C9: `createQueryString` joins one `key=urlEncode(value)` part per
entry with ampersands, URL-encoding only the value, in the
caller-supplied key order of the mapping. -/
theorem c9_createQueryString_spec :
    ∀ (urlEncode : String → String) (params : Params),
      createQueryString urlEncode params = buildQueryStringSpec urlEncode params := by
  intro u params
  simp only [createQueryString, buildQueryStringSpec]
  rw [foldl_push_eq_map, List.nil_append]

/-- C2 (amended: the stored token must be non-null AND nonempty, since the
source coerces a falsy token to null via `data.token || null`): with such
a token exactly one trade runs; on success the state keeps the traded
session with the token cleared and the promise resolves with that session;
on failure token, sessionID and sessionName are all cleared and the
promise rejects with `AuthError`; and with a null token and no sessionID
the call rejects with `AuthError` without any network call. -/
theorem c2_getSession_trade :
    (∀ (d : StoredData) (t : String) (trade : Except Unit Session),
       d.token = some t → t ≠ "" →
       (getSession d trade).tradeCalls = 1 ∧
       (∀ sess : Session, trade = Except.ok sess →
          getSession d trade =
            { state := { token := none, sessionID := some sess.key,
                         sessionName := some sess.name },
              outcome := Except.ok { sessionID := some sess.key,
                                     sessionName := some sess.name },
              tradeCalls := 1 }) ∧
       (trade = Except.error () →
          getSession d trade =
            { state := { token := none, sessionID := none, sessionName := none },
              outcome := Except.error ServiceCallResult.AuthError,
              tradeCalls := 1 })) ∧
    (∀ (d : StoredData) (trade : Except Unit Session),
       d.token = none → d.sessionID = none →
       getSession d trade =
         { state := d, outcome := Except.error ServiceCallResult.AuthError,
           tradeCalls := 0 }) := by
  constructor
  · intro d t trade htok ht
    have hjs : jsOrNull d.token = some t := by
      simp [jsOrNull, jsTruthy, htok, ht]
    refine ⟨?_, ?_, ?_⟩
    · cases trade <;> simp [getSession, hjs]
    · intro sess hsess
      subst hsess
      simp [getSession, hjs]
    · intro hsess
      subst hsess
      simp [getSession, hjs]
  · intro d trade htok hsid
    simp [getSession, jsOrNull, jsTruthy, htok, hsid]

/-- C2 counterexample: the state with the non-null token `some ""` (an
empty string is non-null in JavaScript) performs no trade at all, against
the claim that every non-null token is traded exactly once. -/
theorem c2_counterexample :
    ¬((getSession ⟨some "", none, none⟩ (Except.ok ⟨"sess1", "u1"⟩)).tradeCalls = 1) := by
  decide

/-- C2 witness: a successful trade of the stored token `tok` moves the
credentials to the traded session, and the empty state fails fast. -/
theorem c2_witness :
    getSession ⟨some "tok", none, none⟩ (Except.ok ⟨"sess1", "u1"⟩) =
      { state := { token := none, sessionID := some "sess1", sessionName := some "u1" },
        outcome := Except.ok { sessionID := some "sess1", sessionName := some "u1" },
        tradeCalls := 1 } ∧
    getSession ⟨none, none, none⟩ (Except.error ()) =
      { state := ⟨none, none, none⟩,
        outcome := Except.error ServiceCallResult.AuthError, tradeCalls := 0 } :=
  ⟨(c2_getSession_trade.1 ⟨some "tok", none, none⟩ "tok" (Except.ok ⟨"sess1", "u1"⟩)
      rfl (by decide)).2.1 ⟨"sess1", "u1"⟩ rfl,
   c2_getSession_trade.2 ⟨none, none, none⟩ (Except.error ()) rfl rfl⟩

/-- C3 (amended: the cached sessionID must be set to a NONEMPTY string,
since `!data.sessionID` treats the empty string as no session): then
`getSession` issues no network call, resolves with the cached session,
leaves the state unchanged, and a repeated call behaves identically. -/
theorem c3_getSession_cached :
    ∀ (d : StoredData) (s : String) (trade trade2 : Except Unit Session),
      d.token = none → d.sessionID = some s → s ≠ "" →
      getSession d trade =
        { state := d,
          outcome := Except.ok { sessionID := some s, sessionName := d.sessionName },
          tradeCalls := 0 } ∧
      getSession (getSession d trade).state trade2 =
        { state := d,
          outcome := Except.ok { sessionID := some s, sessionName := d.sessionName },
          tradeCalls := 0 } := by
  intro d s trade trade2 htok hsid hs
  have key : ∀ tr : Except Unit Session,
      getSession d tr =
        { state := d,
          outcome := Except.ok { sessionID := some s, sessionName := d.sessionName },
          tradeCalls := 0 } := by
    intro tr
    simp [getSession, jsOrNull, jsTruthy, htok, hsid, hs]
  refine ⟨key trade, ?_⟩
  rw [key trade]
  exact key trade2

/-- C3 counterexample: with the set sessionID `some ""` (set but empty,
hence falsy in JavaScript) the call does not resolve with the cached
session as the claim states; it rejects with `AuthError`. -/
theorem c3_counterexample :
    ¬(getSession ⟨none, some "", none⟩ (Except.ok ⟨"k", "n"⟩) =
      { state := ⟨none, some "", none⟩,
        outcome := Except.ok { sessionID := some "", sessionName := none },
        tradeCalls := 0 }) := by
  decide

/-- C3 witness: the authenticated state with session `sess1` resolves from
cache twice with no network call. -/
theorem c3_witness :
    getSession ⟨none, some "sess1", some "u1"⟩ (Except.error ()) =
      { state := ⟨none, some "sess1", some "u1"⟩,
        outcome := Except.ok { sessionID := some "sess1", sessionName := some "u1" },
        tradeCalls := 0 } ∧
    getSession (getSession ⟨none, some "sess1", some "u1"⟩ (Except.error ())).state
        (Except.ok ⟨"x", "y"⟩) =
      { state := ⟨none, some "sess1", some "u1"⟩,
        outcome := Except.ok { sessionID := some "sess1", sessionName := some "u1" },
        tradeCalls := 0 } :=
  c3_getSession_cached ⟨none, some "sess1", some "u1"⟩ "sess1"
    (Except.error ()) (Except.ok ⟨"x", "y"⟩) rfl rfl (by decide)

/-- C10 (amended: the token must additionally be nonempty, since the
source coerces a falsy token to null): when both token and sessionID are
set, `getSession` does not return the cached session but trades the
token; success overwrites the stored session with the traded one, failure
clears the previously valid session along with the token. -/
theorem c10_getSession_both_set :
    ∀ (d : StoredData) (t s : String) (trade : Except Unit Session),
      d.token = some t → t ≠ "" → d.sessionID = some s →
      (getSession d trade).tradeCalls = 1 ∧
      (∀ sess : Session, trade = Except.ok sess →
         getSession d trade =
           { state := { token := none, sessionID := some sess.key,
                        sessionName := some sess.name },
             outcome := Except.ok { sessionID := some sess.key,
                                    sessionName := some sess.name },
             tradeCalls := 1 }) ∧
      (trade = Except.error () →
         getSession d trade =
           { state := { token := none, sessionID := none, sessionName := none },
             outcome := Except.error ServiceCallResult.AuthError,
             tradeCalls := 1 }) := by
  intro d t s trade htok ht _hsid
  have hjs : jsOrNull d.token = some t := by
    simp [jsOrNull, jsTruthy, htok, ht]
  refine ⟨?_, ?_, ?_⟩
  · cases trade <;> simp [getSession, hjs]
  · intro sess hsess
    subst hsess
    simp [getSession, hjs]
  · intro hsess
    subst hsess
    simp [getSession, hjs]

/-- C10 counterexample: with both fields non-null but the token empty
(hence falsy), the call performs no trade, against the claim that it
always trades in this state. -/
theorem c10_counterexample :
    ¬((getSession ⟨some "", some "x", some "n"⟩ (Except.error ())).tradeCalls = 1) := by
  decide

/-- C10 witness: a state holding both the token `tok` and the session
`old` trades the token and the traded session overwrites the old one. -/
theorem c10_witness :
    (getSession ⟨some "tok", some "old", some "om"⟩
        (Except.ok ⟨"new", "nn"⟩)).tradeCalls = 1 ∧
    getSession ⟨some "tok", some "old", some "om"⟩ (Except.ok ⟨"new", "nn"⟩) =
      { state := { token := none, sessionID := some "new", sessionName := some "nn" },
        outcome := Except.ok { sessionID := some "new", sessionName := some "nn" },
        tradeCalls := 1 } :=
  ⟨(c10_getSession_both_set ⟨some "tok", some "old", some "om"⟩ "tok" "old"
      (Except.ok ⟨"new", "nn"⟩) rfl (by decide) rfl).1,
   (c10_getSession_both_set ⟨some "tok", some "old", some "om"⟩ "tok" "old"
      (Except.ok ⟨"new", "nn"⟩) rfl (by decide) rfl).2.1 ⟨"new", "nn"⟩ rfl⟩

theorem credInv_getAuthUrl (a k : String) (d : StoredData) (resp : Option TokenResponse)
    (h : CredInv d) : CredInv (getAuthUrl a k d resp).1 := by
  match resp with
  | none => simpa [getAuthUrl] using h
  | some r =>
    by_cases hs : r.status = some "ok"
    · simp [getAuthUrl, hs, CredInv]
    · simp [getAuthUrl, hs, CredInv]

theorem credInv_getSession (d : StoredData) (trade : Except Unit Session)
    (h : CredInv d) : CredInv (getSession d trade).state := by
  cases hjs : jsOrNull d.token with
  | some t => cases trade <;> simp [getSession, hjs, CredInv]
  | none =>
    by_cases hsid : jsTruthy d.sessionID = true <;>
      simpa [getSession, hjs, hsid] using h

theorem credInv_reachable : ∀ d : StoredData, ReachableCred d → CredInv d := by
  intro d h
  induction h with
  | init => decide
  | authStep a k resp _ ih => exact credInv_getAuthUrl a k _ resp ih
  | sessionStep trade _ ih => exact credInv_getSession _ trade ih

/-- C4: the invariant that token and sessionID are never both set is
preserved by every credential write of `getAuthUrl` and `getSession`, and
therefore holds in every state reachable from the empty credential
record. -/
theorem c4_credential_invariant :
    (∀ (d : StoredData) (a k : String) (resp : Option TokenResponse),
       CredInv d → CredInv (getAuthUrl a k d resp).1) ∧
    (∀ (d : StoredData) (trade : Except Unit Session),
       CredInv d → CredInv (getSession d trade).state) ∧
    (∀ d : StoredData, ReachableCred d → CredInv d) :=
  ⟨fun d a k resp h => credInv_getAuthUrl a k d resp h,
   fun d trade h => credInv_getSession d trade h,
   credInv_reachable⟩

/-- C4 witness: the invariant holds after a successful trade from a
token-bearing state, and in the initial reachable state. -/
theorem c4_witness :
    CredInv (getSession ⟨some "tok", none, none⟩ (Except.ok ⟨"s", "n"⟩)).state ∧
    CredInv (⟨none, none, none⟩ : StoredData) :=
  ⟨c4_credential_invariant.2.1 ⟨some "tok", none, none⟩ (Except.ok ⟨"s", "n"⟩) (by decide),
   c4_credential_invariant.2.2 ⟨none, none, none⟩ ReachableCred.init⟩

/-- C6 (amended: a non-2xx HTTP response is not by itself a failure of
this pipeline — `fetch` resolves on any HTTP status and `doRequest` never
reads the status code, so such a response is parsed like any other):
a network-level failure or a body that fails to parse as XML rejects with
`OtherError`, and every rejection `doRequest` produces is `OtherError`,
never a raw exception. -/
theorem c6_doRequest_errors :
    (∀ (md5 : String → String) (apiKey apiSecret method : String) (params : Params)
       (signed : Bool) (parseXML : String → Option Envelope),
       doRequest md5 apiKey apiSecret method params signed
           FetchOutcome.networkError parseXML
         = Except.error ServiceCallResult.OtherError) ∧
    (∀ (md5 : String → String) (apiKey apiSecret method : String) (params : Params)
       (signed : Bool) (parseXML : String → Option Envelope)
       (status : Nat) (body : String),
       parseXML body = none →
       doRequest md5 apiKey apiSecret method params signed
           (FetchOutcome.response status body) parseXML
         = Except.error ServiceCallResult.OtherError) ∧
    (∀ (md5 : String → String) (apiKey apiSecret method : String) (params : Params)
       (signed : Bool) (fetched : FetchOutcome)
       (parseXML : String → Option Envelope) (e : ServiceCallResult),
       doRequest md5 apiKey apiSecret method params signed fetched parseXML
           = Except.error e →
       e = ServiceCallResult.OtherError) := by
  refine ⟨fun _ _ _ _ _ _ _ => rfl, ?_, ?_⟩
  · intro md5 apiKey apiSecret method params signed parseXML status body hp
    simp [doRequest, hp]
  · intro md5 apiKey apiSecret method params signed fetched parseXML e h
    cases fetched with
    | networkError =>
      simp [doRequest] at h
      exact h.symm
    | response status body =>
      cases hp : parseXML body with
      | none =>
        simp [doRequest, hp] at h
        exact h.symm
      | some doc =>
        simp [doRequest, hp] at h

/-- C6 counterexample: a non-2xx response (HTTP 500) whose body parses as
an XML envelope does not reject with `OtherError`; `doRequest` resolves
with the parsed document. -/
theorem c6_counterexample :
    doRequest (fun s => s) "key" "secret" "POST" [] false
        (FetchOutcome.response 500 "body") (fun _ => some { status := some "failed" })
      ≠ Except.error ServiceCallResult.OtherError := by
  decide

/-- C6 witness: an HTTP 200 answer whose body is not XML collapses to
`OtherError`. -/
theorem c6_witness :
    doRequest (fun s => s) "key" "secret" "GET" [] false
        (FetchOutcome.response 200 "junk") (fun _ => none)
      = Except.error ServiceCallResult.OtherError :=
  c6_doRequest_errors.2.1 (fun s => s) "key" "secret" "GET" [] false
    (fun _ => none) 200 "junk" rfl

/-- C7: on an ok-status token response `getAuthUrl` stores the parsed
token, clears the sessionID, and resolves with the authorization URL that
embeds that token as the `token=` query parameter; on a non-ok response
it nulls the stored token and rejects; and the operation wrapped in its
10000 ms timeout rejects whenever the inner chain has not settled before
the timer fires. -/
theorem c7_getAuthUrl_spec :
    (∀ (authUrl apiKey : String) (d : StoredData) (r : TokenResponse),
       r.status = some "ok" →
       getAuthUrl authUrl apiKey d (some r)
         = ({ d with sessionID := none, token := some r.tokenText },
            Except.ok (authUrl ++ "?api_key=" ++ apiKey ++ "&token=" ++ r.tokenText))) ∧
    (∀ (authUrl apiKey : String) (d : StoredData) (r : TokenResponse),
       r.status ≠ some "ok" →
       getAuthUrl authUrl apiKey d (some r) = ({ d with token := none }, Except.error ())) ∧
    (∀ (authUrl apiKey : String) (d : StoredData) (settleAt : Nat)
       (resp : Option TokenResponse),
       GET_AUTH_URL_TIMEOUT ≤ settleAt →
       (getAuthUrlTimed authUrl apiKey d settleAt resp).2 = Except.error ()) := by
  refine ⟨?_, ?_, ?_⟩
  · intro authUrl apiKey d r h
    simp [getAuthUrl, h]
  · intro authUrl apiKey d r h
    simp [getAuthUrl, h]
  · intro authUrl apiKey d settleAt resp h
    have hn : ¬(settleAt < GET_AUTH_URL_TIMEOUT) := not_lt.mpr h
    simp [getAuthUrlTimed, timeoutPromise, hn]

/-- C7 witness: from the empty state an ok response carrying the token
abc123 stores it and returns the URL embedding it, and a chain that takes
the full 10000 ms is rejected by the timeout. -/
theorem c7_witness :
    getAuthUrl "https://auth" "key" ⟨none, none, none⟩ (some ⟨some "ok", "abc123"⟩)
      = (⟨some "abc123", none, none⟩,
         Except.ok ("https://auth" ++ "?api_key=" ++ "key" ++ "&token=" ++ "abc123")) ∧
    (getAuthUrlTimed "https://auth" "key" ⟨none, none, none⟩ 10000
        (some ⟨some "ok", "abc123"⟩)).2 = Except.error () :=
  ⟨c7_getAuthUrl_spec.1 "https://auth" "key" ⟨none, none, none⟩ ⟨some "ok", "abc123"⟩ rfl,
   c7_getAuthUrl_spec.2.2 "https://auth" "key" ⟨none, none, none⟩ 10000
     (some ⟨some "ok", "abc123"⟩) (le_refl 10000)⟩

/-- C8: from an authenticated state with session key `s`, `scrobble`
builds a signed POST whose parameters carry `method=track.scrobble`, the
indexed names `track[0]`, `artist[0]`, `timestamp[0]`, the session key as
`sk`, and an `album[0]` entry exactly when the song carries an album. -/
theorem c8_scrobble_request :
    ∀ (apiKey : String) (d : StoredData) (s : String) (trade : Except Unit Session)
      (song : Song),
      d.token = none → d.sessionID = some s → s ≠ "" →
      scrobble apiKey d trade song
          = Except.ok { method := "POST", params := scrobbleParams apiKey s song,
                        signed := true } ∧
      List.lookup "method" (scrobbleParams apiKey s song) = some "track.scrobble" ∧
      List.lookup "track[0]" (scrobbleParams apiKey s song) = some song.track ∧
      List.lookup "artist[0]" (scrobbleParams apiKey s song) = some song.artist ∧
      List.lookup "timestamp[0]" (scrobbleParams apiKey s song)
          = some (toString song.startTimestamp) ∧
      List.lookup "sk" (scrobbleParams apiKey s song) = some s ∧
      (∀ a : String, song.album = some a →
         List.lookup "album[0]" (scrobbleParams apiKey s song) = some a) ∧
      (song.album = none →
         List.lookup "album[0]" (scrobbleParams apiKey s song) = none) := by
  intro apiKey d s trade song htok hsid hs
  have hsession : (getSession d trade).outcome
      = Except.ok { sessionID := some s, sessionName := d.sessionName } := by
    simp [getSession, jsOrNull, jsTruthy, htok, hsid, hs]
  obtain ⟨ar, tr, alb, du, ts⟩ := song
  refine ⟨by simp [scrobble, hsession], ?_, ?_, ?_, ?_, ?_, ?_, ?_⟩
  · cases alb <;> rfl
  · cases alb <;> rfl
  · cases alb <;> rfl
  · cases alb <;> rfl
  · cases alb <;> rfl
  · intro a ha
    cases alb with
    | none => exact absurd ha (by simp)
    | some b =>
      obtain rfl : b = a := by simpa using ha
      rfl
  · intro ha
    cases alb with
    | none => rfl
    | some b => exact absurd ha (by simp)

/-- C8 witness: the spec scenario with session sess1 and the song
artist A, track T, timestamp 1000 and no album. -/
theorem c8_witness :
    scrobble "key" ⟨none, some "sess1", some "u1"⟩ (Except.error ())
        ⟨"A", "T", none, none, 1000⟩
      = Except.ok { method := "POST",
                    params := scrobbleParams "key" "sess1" ⟨"A", "T", none, none, 1000⟩,
                    signed := true } ∧
    List.lookup "track[0]" (scrobbleParams "key" "sess1" ⟨"A", "T", none, none, 1000⟩)
        = some "T" ∧
    List.lookup "artist[0]" (scrobbleParams "key" "sess1" ⟨"A", "T", none, none, 1000⟩)
        = some "A" ∧
    List.lookup "timestamp[0]" (scrobbleParams "key" "sess1" ⟨"A", "T", none, none, 1000⟩)
        = some "1000" ∧
    List.lookup "sk" (scrobbleParams "key" "sess1" ⟨"A", "T", none, none, 1000⟩)
        = some "sess1" ∧
    List.lookup "album[0]" (scrobbleParams "key" "sess1" ⟨"A", "T", none, none, 1000⟩)
        = none :=
  ⟨(c8_scrobble_request "key" ⟨none, some "sess1", some "u1"⟩ "sess1" (Except.error ())
      ⟨"A", "T", none, none, 1000⟩ rfl rfl (by decide)).1,
   (c8_scrobble_request "key" ⟨none, some "sess1", some "u1"⟩ "sess1" (Except.error ())
      ⟨"A", "T", none, none, 1000⟩ rfl rfl (by decide)).2.2.1,
   (c8_scrobble_request "key" ⟨none, some "sess1", some "u1"⟩ "sess1" (Except.error ())
      ⟨"A", "T", none, none, 1000⟩ rfl rfl (by decide)).2.2.2.1,
   (c8_scrobble_request "key" ⟨none, some "sess1", some "u1"⟩ "sess1" (Except.error ())
      ⟨"A", "T", none, none, 1000⟩ rfl rfl (by decide)).2.2.2.2.1,
   (c8_scrobble_request "key" ⟨none, some "sess1", some "u1"⟩ "sess1" (Except.error ())
      ⟨"A", "T", none, none, 1000⟩ rfl rfl (by decide)).2.2.2.2.2.1,
   (c8_scrobble_request "key" ⟨none, some "sess1", some "u1"⟩ "sess1" (Except.error ())
      ⟨"A", "T", none, none, 1000⟩ rfl rfl (by decide)).2.2.2.2.2.2.2 rfl⟩

end Scrobbler
